import Mathlib

/-!
Verification of the duplex audio streaming session manager of the movtrans
application (src/components/ChatInterface.tsx, LiveInterface component, and
src/App.tsx), embedded shallowly: React state and refs become fields of an
explicit state record, event handlers become pure functions from state to
state together with the list of observable effects they perform, and
timestamps become rationals.
-/

namespace Movtrans

/-- Session status, mirroring `useState<'idle' | 'connecting' | 'connected' | 'error'>`. -/
inductive Status
  | idle
  | connecting
  | connected
  | error
deriving DecidableEq, Repr

/-- Application mode, mirroring `enum AppMode { CHAT, LIVE }` in src/types.ts. -/
inductive AppMode
  | chat
  | live
deriving DecidableEq, Repr

/-- Observable side effects performed by the handlers: stopping or starting an
audio buffer source, disconnecting or releasing a device, closing an audio
context, closing the remote session, sending a captured frame. -/
inductive Action
  | stopVoice (h : Nat)
  | startVoice (h : Nat) (t : ℚ)
  | disconnectProcessor
  | disconnectInputSource
  | stopTracks
  | closeInputContext
  | closeOutputContext
  | closeSession
  | sendFrame (data : String)
deriving DecidableEq, Repr

/-- The mutable state of the LiveInterface component: the three `useState`
values and the refs (`nextStartTimeRef`, `sourcesRef`, and the resource refs,
each `Option` for a nullable ref; audio buffer source nodes and OS resources
are identified by numeric handles). -/
structure LiveState where
  status : Status
  isActive : Bool
  isMuted : Bool
  errorMessage : String
  nextStartTime : ℚ
  sources : List Nat
  scriptProcessor : Option Nat
  inputSource : Option Nat
  stream : Option Nat
  inputContext : Option Nat
  outputContext : Option Nat
  session : Option Nat
deriving DecidableEq, Repr

/-- Release action emitted for an optional resource: the source guards each
release behind a null check of the corresponding ref. -/
def optActs (o : Option Nat) (a : Action) : List Action :=
  match o with
  | some _ => [a]
  | none => []

/-- The `cleanup` callback (ChatInterface.tsx lines 270-319): stops every
source in `sourcesRef` (each stop wrapped in try/catch), clears the set,
disconnects the script processor and the input source, stops the media
tracks, closes both audio contexts — each guarded by a null check and nulled
afterwards — then sets `isActive` false, `status` to idle and the playback
cursor to 0. The session ref is deliberately left untouched (the explicit
`session.close()` call is commented out in the source). -/
def cleanup (s : LiveState) : LiveState × List Action :=
  ({ s with
      sources := []
      scriptProcessor := none
      inputSource := none
      stream := none
      inputContext := none
      outputContext := none
      isActive := false
      status := Status.idle
      nextStartTime := 0 },
   s.sources.map Action.stopVoice
     ++ optActs s.scriptProcessor Action.disconnectProcessor
     ++ optActs s.inputSource Action.disconnectInputSource
     ++ optActs s.stream Action.stopTracks
     ++ optActs s.inputContext Action.closeInputContext
     ++ optActs s.outputContext Action.closeOutputContext)

/-- The `toggleMute` callback: `setIsMuted(!isMuted)`. -/
def toggleMute (s : LiveState) : LiveState :=
  { s with isMuted := !s.isMuted }

theorem cleanup_second_call_no_actions (s : LiveState) :
    (cleanup (cleanup s).1).2 = [] := by
  simp [cleanup, optActs]

theorem cleanup_state_idempotent (s : LiveState) :
    (cleanup (cleanup s).1).1 = (cleanup s).1 := by
  simp [cleanup]

/-- Fixed capture rate, from src/constants.ts (`INPUT_SAMPLE_RATE = 16000`). -/
def inputSampleRate : ℚ := 16000

/-- Fixed playback rate, from src/constants.ts (`OUTPUT_SAMPLE_RATE = 24000`). -/
def outputSampleRate : ℚ := 24000

/-- The standard base64 alphabet, as a list of characters. -/
def b64Alphabet : List Char :=
  "ABCDEFGHIJKLMNOPQRSTUVWXYZabcdefghijklmnopqrstuvwxyz0123456789+/".toList

/-- The base64 character for a sextet value. -/
def b64Char (n : Nat) : Char :=
  b64Alphabet.getD n 'A'

/-- Position of a character in a list, or `none` when absent. -/
def findIdx : List Char → Char → Option Nat
  | [], _ => none
  | a :: l, c => if a = c then some 0 else (findIdx l c).map Nat.succ

/-- Sextet value of a base64 character, or `none` for an invalid character. -/
def b64Index (c : Char) : Option Nat :=
  findIdx b64Alphabet c

/-- Modelled from the spec: the text-safe byte encoding used by
`uint8ArrayToBase64` in the missing `utils/audio` module — standard base64,
encoding byte triples as four alphabet characters with `=` padding. -/
def encodeB64Groups : List Nat → List Char
  | b0 :: b1 :: b2 :: rest =>
      let n := b0 * 65536 + b1 * 256 + b2
      b64Char (n / 262144) :: b64Char (n / 4096 % 64) :: b64Char (n / 64 % 64) ::
        b64Char (n % 64) :: encodeB64Groups rest
  | [b0, b1] =>
      let n := b0 * 65536 + b1 * 256
      [b64Char (n / 262144), b64Char (n / 4096 % 64), b64Char (n / 64 % 64), '=']
  | [b0] =>
      let n := b0 * 65536
      [b64Char (n / 262144), b64Char (n / 4096 % 64), '=', '=']
  | [] => []

/-- Modelled from the spec: the inverse text-safe decoding used by
`base64ToUint8Array` in the missing `utils/audio` module — fails (like `atob`)
on any input that is not well-formed base64. -/
def decodeB64Groups : List Char → Option (List Nat)
  | [] => some []
  | c0 :: c1 :: c2 :: c3 :: rest =>
      (b64Index c0).bind fun a =>
      (b64Index c1).bind fun b =>
      if c2 = '=' then
        if c3 = '=' ∧ rest = [] then some [a * 4 + b / 16] else none
      else
        (b64Index c2).bind fun c =>
        if c3 = '=' then
          if rest = [] then some [a * 4 + b / 16, b % 16 * 16 + c / 4] else none
        else
          (b64Index c3).bind fun d =>
          (decodeB64Groups rest).map
            (fun l => (a * 4 + b / 16) :: (b % 16 * 16 + c / 4) :: (c % 4 * 64 + d) :: l)
  | _ => none

/-- Modelled from the spec: `uint8ArrayToBase64` from the missing
`utils/audio` module. -/
def uint8ArrayToBase64 (bytes : List Nat) : String :=
  String.mk (encodeB64Groups bytes)

/-- Modelled from the spec: `base64ToUint8Array` from the missing
`utils/audio` module; `none` models the decode failure on malformed input. -/
def base64ToUint8Array (s : String) : Option (List Nat) :=
  decodeB64Groups s.toList

/-- Modelled from the spec: `float32ToInt16` from the missing `utils/audio`
module — PCM sample-format conversion of a unit-range sample to a signed
16-bit value, clamped. -/
def float32ToInt16 (x : ℚ) : ℤ :=
  max (-32768) (min 32767 ⌊x * 32768⌋)

/-- Little-endian byte pair of a signed 16-bit value (the `Uint8Array` view
of the `Int16Array` buffer taken by the capture handler). -/
def int16ToBytes (n : ℤ) : List Nat :=
  let u : Nat := (n % 65536).toNat
  [u % 256, u / 256]

/-- Wire PCM representation of a list of 16-bit samples. -/
def pcm16Bytes (samples : List ℤ) : List Nat :=
  (samples.map int16ToBytes).flatten

/-- Signed 16-bit value of an unsigned 16-bit code. -/
def toI16 (u : Nat) : ℤ :=
  if u < 32768 then (u : ℤ) else (u : ℤ) - 65536

/-- Little-endian 16-bit samples of a byte list; fails on truncated (odd
length) input. -/
def bytesToInt16s : List Nat → Option (List ℤ)
  | [] => some []
  | lo :: hi :: rest => (bytesToInt16s rest).map (fun l => toI16 (lo + 256 * hi) :: l)
  | [_] => none

/-- A captured audio frame: unit-range samples at a capture sample rate. -/
structure AudioFrame where
  samples : List ℚ
  sampleRate : ℚ
deriving DecidableEq, Repr

/-- Duration of a frame, in seconds. -/
def AudioFrame.duration (f : AudioFrame) : ℚ :=
  f.samples.length / f.sampleRate

/-- A decoded playback buffer at its intended output sample rate. -/
structure PlaybackChunk where
  samples : List ℚ
  sampleRate : ℚ
deriving DecidableEq, Repr

/-- Duration of a playback chunk, in seconds (`AudioBuffer.duration`). -/
def PlaybackChunk.duration (c : PlaybackChunk) : ℚ :=
  c.samples.length / c.sampleRate

/-- The encode path of the capture handler (ChatInterface.tsx lines 374-378):
`float32ToInt16` on the frame samples, then the `Uint8Array` view of the
16-bit buffer, then `uint8ArrayToBase64`. -/
def encodeFrame (f : AudioFrame) : String :=
  uint8ArrayToBase64 (pcm16Bytes (f.samples.map float32ToInt16))

/-- Modelled from the spec: `decodeAudioData` from the missing `utils/audio`
module — reconstructs a playable buffer at the given output rate from wire
PCM bytes, failing on truncated input. -/
def decodeAudioData (bytes : List Nat) (rate : ℚ) : Except String PlaybackChunk :=
  (bytesToInt16s bytes).elim (Except.error "MalformedAudioData")
    (fun ints => Except.ok ⟨ints.map (fun (i : ℤ) => (i : ℚ) / 32768), rate⟩)

/-- The full inbound decode path of the message handler (ChatInterface.tsx
lines 399-400): `base64ToUint8Array` then `decodeAudioData`. -/
def decodeChunk (data : String) (rate : ℚ) : Except String PlaybackChunk :=
  (base64ToUint8Array data).elim (Except.error "MalformedAudioData")
    (fun bytes => decodeAudioData bytes rate)

/-- An inbound server message, keeping the two fields the handler reads:
`serverContent?.modelTurn?.parts?.[0]?.inlineData?.data` (a base64 string or
absent) and `serverContent?.interrupted`. -/
structure ServerMessage where
  audioData : Option String
  interrupted : Bool
deriving DecidableEq, Repr

/-- The audio payload the handler acts on: present only when the message
carries a non-empty data string (JS truthiness of `audioData`) and the output
context ref is non-null. -/
def audioPayload (msg : ServerMessage) (s : LiveState) : Option String :=
  match msg.audioData, s.outputContext with
  | some data, some _ => if data = "" then none else some data
  | _, _ => none

/-- The `onmessage` callback (ChatInterface.tsx lines 394-432). Audio branch:
decode the payload at the fixed output rate; if the playback cursor
`nextStartTimeRef` is behind the sink time `tNow` (underrun), snap it to
`tNow`; start the new source (handle `newHandle`) at the cursor; advance the
cursor by the buffer duration; add the source to the set. A decode exception
aborts the handler with no state change. Interrupted branch: stop every
source in the set, clear it, and set the cursor to 0. -/
def onmessage (tNow : ℚ) (newHandle : Nat) (msg : ServerMessage) (s : LiveState) :
    LiveState × List Action :=
  match audioPayload msg s with
  | some data =>
      match decodeChunk data outputSampleRate with
      | Except.error _ => (s, [])
      | Except.ok buf =>
          let cursor := if s.nextStartTime < tNow then tNow else s.nextStartTime
          let s1 := { s with
            nextStartTime := cursor + buf.duration
            sources := newHandle :: s.sources }
          let acts := [Action.startVoice newHandle cursor]
          if msg.interrupted then
            ({ s1 with sources := [], nextStartTime := 0 },
             acts ++ s1.sources.map Action.stopVoice)
          else
            (s1, acts)
  | none =>
      if msg.interrupted then
        ({ s with sources := [], nextStartTime := 0 }, s.sources.map Action.stopVoice)
      else
        (s, [])

/-- The closure state of the registered `processor.onaudioprocess` handler:
it closes over the value the `isMuted` binding had in the render that invoked
`startSession`, frozen at registration (React state read through a stale
closure, not through a ref). -/
structure CaptureHandler where
  capturedMuted : Bool
deriving DecidableEq, Repr

/-- Registration of the capture handler inside the `onopen` callback: the
closure captures the current `isMuted` value. -/
def registerCaptureHandler (s : LiveState) : CaptureHandler :=
  ⟨s.isMuted⟩

/-- The `processor.onaudioprocess` callback (ChatInterface.tsx lines
370-389): returns early when the captured mute flag is set, otherwise encodes
the frame and sends it over the session. -/
def onaudioprocess (h : CaptureHandler) (f : AudioFrame) : List Action :=
  if h.capturedMuted then [] else [Action.sendFrame (encodeFrame f)]

/-- Result of microphone acquisition (`getUserMedia`): a stream handle, or a
rejection with a reason string. -/
inductive MicResult
  | granted (streamId : Nat)
  | denied (reason : String)
deriving DecidableEq, Repr

/-- Observable outcome of one `startSession` call: the final component state,
the sequence of `setStatus` calls made during the call, whether
`ai.live.connect` was reached, and whether the settings dialog was opened
instead. -/
structure StartResult where
  state : LiveState
  statusTrace : List Status
  connectAttempted : Bool
  openedSettings : Bool
deriving DecidableEq, Repr

/-- The `startSession` callback (ChatInterface.tsx lines 321-452) up to the
resolution of the connection promise. With an empty API key it only opens the
settings dialog. Otherwise it sets status to connecting, clears the error
message, creates the two audio contexts, and awaits `getUserMedia`. A denial
throws into the catch block, which records the reason, sets status to error,
and calls `cleanup` — which in turn sets status back to idle. On a grant the
stream is stored and `ai.live.connect` is invoked; status stays connecting
until the asynchronous `onopen` fires. -/
def startSession (apiKey : String) (mic : MicResult) (s : LiveState) : StartResult :=
  if apiKey = "" then
    ⟨s, [], false, true⟩
  else
    let s2 := { s with
      status := Status.connecting
      errorMessage := ""
      inputContext := some 0
      outputContext := some 1 }
    match mic with
    | MicResult.denied reason =>
        let s3 := { s2 with errorMessage := reason, status := Status.error }
        ⟨(cleanup s3).1, [Status.connecting, Status.error, Status.idle], false, false⟩
    | MicResult.granted streamId =>
        ⟨{ s2 with stream := some streamId }, [Status.connecting], true, false⟩

/-- What the App component renders: the configuration-error screen, or the
main content area mounting one of the two interfaces. -/
inductive AppView
  | configError
  | main (mode : AppMode)
deriving DecidableEq, Repr

/-- The API key initialization in src/App.tsx line 13:
`process.env.API_KEY || ''` — the environment variable, or the empty string
when it is unset. -/
def appApiKey (env : Option String) : String :=
  env.getD ""

/-- The App component's render (src/App.tsx lines 21-36 and 121-128): the
strict check returns the configuration-error screen when the key is empty,
otherwise the main content area mounts ChatInterface or LiveInterface by
mode. -/
def appRender (env : Option String) (mode : AppMode) : AppView :=
  if appApiKey env = "" then AppView.configError else AppView.main mode

/-- Whether a rendered view mounts the ChatInterface component. -/
def mountsChatInterface (v : AppView) : Bool :=
  match v with
  | AppView.main AppMode.chat => true
  | _ => false

/-- Whether a rendered view mounts the LiveInterface component. -/
def mountsLiveInterface (v : AppView) : Bool :=
  match v with
  | AppView.main AppMode.live => true
  | _ => false

theorem b64Index_b64Char : ∀ n < 64, b64Index (b64Char n) = some n := by
  decide

theorem b64Char_ne_pad : ∀ n < 64, b64Char n ≠ '=' := by
  decide

theorem decodeB64_encodeB64 (bs : List Nat) (h : ∀ b ∈ bs, b < 256) :
    decodeB64Groups (encodeB64Groups bs) = some bs := by
  induction bs using encodeB64Groups.induct with
  | case4 =>
      simp [encodeB64Groups, decodeB64Groups]
  | case3 b0 =>
      have hb0 : b0 < 256 := h b0 (by simp)
      rw [encodeB64Groups, decodeB64Groups]
      rw [b64Index_b64Char _ (by omega), b64Index_b64Char _ (by omega)]
      rw [Option.some_bind, Option.some_bind]
      rw [if_pos rfl, if_pos ⟨rfl, rfl⟩]
      simp only [Option.some.injEq, List.cons.injEq, and_true]
      omega
  | case2 b0 b1 =>
      have hb0 : b0 < 256 := h b0 (by simp)
      have hb1 : b1 < 256 := h b1 (by simp)
      rw [encodeB64Groups, decodeB64Groups]
      rw [b64Index_b64Char _ (by omega), b64Index_b64Char _ (by omega)]
      rw [Option.some_bind, Option.some_bind]
      rw [if_neg (b64Char_ne_pad _ (by omega))]
      rw [b64Index_b64Char _ (by omega), Option.some_bind]
      rw [if_pos rfl, if_pos rfl]
      simp only [Option.some.injEq, List.cons.injEq, and_true]
      omega
  | case1 b0 b1 b2 rest ih =>
      have hb0 : b0 < 256 := h b0 (by simp)
      have hb1 : b1 < 256 := h b1 (by simp)
      have hb2 : b2 < 256 := h b2 (by simp)
      rw [encodeB64Groups, decodeB64Groups]
      rw [b64Index_b64Char _ (by omega), b64Index_b64Char _ (by omega)]
      rw [Option.some_bind, Option.some_bind]
      rw [if_neg (b64Char_ne_pad _ (by omega))]
      rw [b64Index_b64Char _ (by omega), Option.some_bind]
      rw [if_neg (b64Char_ne_pad _ (by omega))]
      rw [b64Index_b64Char _ (by omega), Option.some_bind]
      rw [ih (fun b hb => h b (by simp [hb]))]
      simp only [Option.map_some', Option.some.injEq, List.cons.injEq, and_true]
      omega

theorem float32ToInt16_zero : float32ToInt16 0 = 0 := by
  simp [float32ToInt16]

theorem int16ToBytes_zero : int16ToBytes 0 = [0, 0] := by
  simp [int16ToBytes]

theorem pcm16Bytes_zero (n : ℕ) :
    pcm16Bytes (List.replicate n 0) = List.replicate (2 * n) 0 := by
  induction n with
  | zero => rfl
  | succ k ih =>
      have h2 : 2 * (k + 1) = 2 * k + 1 + 1 := by ring
      simp only [pcm16Bytes] at ih
      simp only [pcm16Bytes, List.replicate_succ, List.map_cons, List.flatten_cons,
        int16ToBytes_zero, ih, h2]
      rfl

theorem bytesToInt16s_zero (n : ℕ) :
    bytesToInt16s (List.replicate (2 * n) 0) = some (List.replicate n (0 : ℤ)) := by
  induction n with
  | zero => rfl
  | succ k ih =>
      have h2 : 2 * (k + 1) = 2 * k + 1 + 1 := by ring
      rw [h2, List.replicate_succ, List.replicate_succ]
      simp only [bytesToInt16s, ih, Option.map_some', List.replicate_succ]
      norm_num [toI16]

theorem encodeFrame_silent (n : ℕ) (rin : ℚ) :
    encodeFrame ⟨List.replicate n 0, rin⟩ =
      String.mk (encodeB64Groups (List.replicate (2 * n) 0)) := by
  simp [encodeFrame, uint8ArrayToBase64, List.map_replicate, float32ToInt16_zero,
    pcm16Bytes_zero]

theorem decodeChunk_silent (n : ℕ) (rin rout : ℚ) :
    decodeChunk (encodeFrame ⟨List.replicate n 0, rin⟩) rout =
      Except.ok ⟨List.replicate n 0, rout⟩ := by
  rw [encodeFrame_silent]
  have hb64 : base64ToUint8Array (String.mk (encodeB64Groups (List.replicate (2 * n) 0))) =
      some (List.replicate (2 * n) 0) :=
    decodeB64_encodeB64 _ (by simp)
  rw [decodeChunk, hb64, Option.elim_some]
  rw [decodeAudioData, bytesToInt16s_zero, Option.elim_some]
  rw [List.map_replicate]
  norm_num

theorem audioPayload_some (data : String) (i : Bool) (s : LiveState)
    (hctx : s.outputContext.isSome = true) (hne : data ≠ "") :
    audioPayload ⟨some data, i⟩ s = some data := by
  cases hoc : s.outputContext with
  | none => rw [hoc] at hctx; simp at hctx
  | some c => simp [audioPayload, hoc, hne]

theorem audioPayload_none (i : Bool) (s : LiveState) :
    audioPayload ⟨none, i⟩ s = none := by
  cases hoc : s.outputContext <;> simp [audioPayload, hoc]

theorem onmessage_audio (tNow : ℚ) (h : Nat) (data : String) (s : LiveState)
    (buf : PlaybackChunk)
    (hap : audioPayload ⟨some data, false⟩ s = some data)
    (hdec : decodeChunk data outputSampleRate = Except.ok buf) :
    onmessage tNow h ⟨some data, false⟩ s =
      ({ s with
          nextStartTime := (if s.nextStartTime < tNow then tNow else s.nextStartTime)
            + buf.duration
          sources := h :: s.sources },
       [Action.startVoice h (if s.nextStartTime < tNow then tNow else s.nextStartTime)]) := by
  unfold onmessage
  rw [hap]
  simp only [hdec, Bool.false_eq_true, if_false]

theorem onmessage_no_audio (tNow : ℚ) (h : Nat) (msg : ServerMessage) (s : LiveState)
    (hna : audioPayload msg s = none) (hi : msg.interrupted = true) :
    onmessage tNow h msg s =
      ({ s with sources := [], nextStartTime := 0 }, s.sources.map Action.stopVoice) := by
  unfold onmessage
  rw [hna]
  simp only [hi, if_true]

theorem decodeChunk_ok_duration (data : String) (r : ℚ) (buf : PlaybackChunk)
    (hdec : decodeChunk data r = Except.ok buf) :
    buf.duration = buf.samples.length / r ∧ buf.sampleRate = r := by
  unfold decodeChunk decodeAudioData at hdec
  cases hb : base64ToUint8Array data with
  | none => rw [hb] at hdec; simp at hdec
  | some bytes =>
      rw [hb, Option.elim_some] at hdec
      cases hbi : bytesToInt16s bytes with
      | none => rw [hbi] at hdec; simp at hdec
      | some ints =>
          rw [hbi, Option.elim_some] at hdec
          have hbuf : buf = ⟨ints.map (fun (j : ℤ) => (j : ℚ) / 32768), r⟩ := by
            cases hdec
            rfl
          subst hbuf
          exact ⟨rfl, rfl⟩

theorem decodeChunk_duration_nonneg (data : String) (r : ℚ) (buf : PlaybackChunk)
    (hr : 0 ≤ r) (hdec : decodeChunk data r = Except.ok buf) :
    0 ≤ buf.duration := by
  rcases decodeChunk_ok_duration data r buf hdec with ⟨hd, _⟩
  rw [hd]
  positivity

theorem mem_optActs {a b : Action} {o : Option Nat} (h : a ∈ optActs o b) : a = b := by
  cases o with
  | none => simp [optActs] at h
  | some x => simpa [optActs] using h

/-- A mid-playback session state: connected, unmuted, two scheduled voices,
cursor at 12, all resources acquired, live session object 8. -/
def sIntr : LiveState :=
  ⟨Status.connected, true, false, "", 12, [1, 2], some 3, some 4, some 5, some 6, some 7,
   some 8⟩

/-- A connected session state with no scheduled voices and cursor at 10. -/
def sW : LiveState :=
  ⟨Status.connected, true, false, "", 10, [], some 3, some 4, some 5, some 6, some 1,
   some 8⟩

/-- The fresh component state: everything idle, null and empty. -/
def idle0 : LiveState :=
  ⟨Status.idle, false, false, "", 0, [], none, none, none, none, none, none⟩

/-- A silent captured frame of 4 samples at the capture rate. -/
def frameW : AudioFrame :=
  ⟨List.replicate 4 0, inputSampleRate⟩

/-- C2-counterexample: after the Interrupted branch of the message handler
runs mid-playback (cursor 12, sink time 5), the playback cursor does not
equal the sink time t_now — the code sets it to 0, not to t_now. -/
theorem interrupted_cursor_ne_tnow :
    (onmessage 5 9 ⟨none, true⟩ sIntr).1.nextStartTime ≠ 5 := by
  rw [onmessage_no_audio 5 9 ⟨none, true⟩ sIntr (audioPayload_none true sIntr) rfl]
  norm_num

/-- C2 (amended): processing an Interrupted event with no audio payload stops
every handle in ActiveVoices, leaves ActiveVoices empty, resets the playback
cursor to 0 (not to the sink time), and leaves the session status unchanged. -/
theorem interrupted_flushes_and_resets_to_zero
    (s : LiveState) (tNow : ℚ) (h : Nat) (msg : ServerMessage)
    (hna : audioPayload msg s = none) (hi : msg.interrupted = true) :
    (onmessage tNow h msg s).1.sources = [] ∧
    (onmessage tNow h msg s).1.nextStartTime = 0 ∧
    (onmessage tNow h msg s).1.status = s.status ∧
    (onmessage tNow h msg s).2 = s.sources.map Action.stopVoice ∧
    ∀ v ∈ s.sources, Action.stopVoice v ∈ (onmessage tNow h msg s).2 := by
  rw [onmessage_no_audio tNow h msg s hna hi]
  refine ⟨rfl, rfl, rfl, rfl, ?_⟩
  intro v hv
  exact List.mem_map.mpr ⟨v, hv, rfl⟩

/-- C2-witness: the amended interrupt property evaluated mid-playback at sink
time 5 with voices 1 and 2 scheduled. -/
theorem interrupted_flushes_witness :
    (onmessage 5 9 ⟨none, true⟩ sIntr).1.sources = [] ∧
    (onmessage 5 9 ⟨none, true⟩ sIntr).1.nextStartTime = 0 ∧
    (onmessage 5 9 ⟨none, true⟩ sIntr).1.status = sIntr.status ∧
    (onmessage 5 9 ⟨none, true⟩ sIntr).2 = sIntr.sources.map Action.stopVoice ∧
    ∀ v ∈ sIntr.sources, Action.stopVoice v ∈ (onmessage 5 9 ⟨none, true⟩ sIntr).2 :=
  interrupted_flushes_and_resets_to_zero sIntr 5 9 ⟨none, true⟩
    (audioPayload_none true sIntr) rfl

/-- C8-counterexample: the Interrupted branch strictly decreases the playback
cursor (from 12 to 0) and leaves it strictly below the sink time 5, so the
cursor is neither monotonically non-decreasing nor always at least the sink
time. -/
theorem cursor_not_monotone_on_interrupt :
    (onmessage 5 9 ⟨none, true⟩ sIntr).1.nextStartTime < sIntr.nextStartTime ∧
    (onmessage 5 9 ⟨none, true⟩ sIntr).1.nextStartTime < 5 := by
  rw [onmessage_no_audio 5 9 ⟨none, true⟩ sIntr (audioPayload_none true sIntr) rfl]
  constructor
  · show (0 : ℚ) < sIntr.nextStartTime
    norm_num [sIntr]
  · norm_num

/-- C8 (amended): scheduling a decoded chunk never decreases the cursor and
advances it to max(cursor, t_now) plus the chunk duration, leaving it at
least t_now; but the Interrupted handler and teardown reset the cursor to 0,
so monotonicity does not hold across those operations. -/
theorem cursor_schedule_monotone
    (s : LiveState) (tNow : ℚ) (h h2 : Nat) (data : String) (buf : PlaybackChunk)
    (hctx : s.outputContext.isSome = true) (hne : data ≠ "")
    (hdec : decodeChunk data outputSampleRate = Except.ok buf) :
    s.nextStartTime ≤ (onmessage tNow h ⟨some data, false⟩ s).1.nextStartTime ∧
    tNow ≤ (onmessage tNow h ⟨some data, false⟩ s).1.nextStartTime ∧
    (onmessage tNow h ⟨some data, false⟩ s).1.nextStartTime
      = max s.nextStartTime tNow + buf.duration ∧
    (onmessage tNow h2 ⟨none, true⟩ s).1.nextStartTime = 0 ∧
    (cleanup s).1.nextStartTime = 0 := by
  have hd : 0 ≤ buf.duration :=
    decodeChunk_duration_nonneg data outputSampleRate buf (by norm_num [outputSampleRate])
      hdec
  rw [onmessage_audio tNow h data s buf (audioPayload_some data false s hctx hne) hdec]
  rw [onmessage_no_audio tNow h2 ⟨none, true⟩ s (audioPayload_none true s) rfl]
  have hmax : (if s.nextStartTime < tNow then tNow else s.nextStartTime)
      = max s.nextStartTime tNow := by
    rcases lt_or_ge s.nextStartTime tNow with hlt | hge
    · rw [if_pos hlt, max_eq_right hlt.le]
    · rw [if_neg (not_lt.mpr hge), max_eq_left hge]
  refine ⟨?_, ?_, ?_, rfl, rfl⟩
  · show s.nextStartTime ≤ (if s.nextStartTime < tNow then tNow else s.nextStartTime)
        + buf.duration
    rw [hmax]
    have := le_max_left s.nextStartTime tNow
    linarith
  · show tNow ≤ (if s.nextStartTime < tNow then tNow else s.nextStartTime) + buf.duration
    rw [hmax]
    have := le_max_right s.nextStartTime tNow
    linarith
  · show (if s.nextStartTime < tNow then tNow else s.nextStartTime) + buf.duration
        = max s.nextStartTime tNow + buf.duration
    rw [hmax]

/-- C7: when decoding the inbound audio payload fails, the message handler
returns with the component state completely unchanged and performs no action:
the chunk is dropped, nothing is scheduled, no teardown and no status
transition happens. -/
theorem decode_failure_nonfatal
    (s : LiveState) (tNow : ℚ) (h : Nat) (data e : String) (i : Bool)
    (hctx : s.outputContext.isSome = true) (hne : data ≠ "")
    (hdec : decodeChunk data outputSampleRate = Except.error e) :
    onmessage tNow h ⟨some data, i⟩ s = (s, []) := by
  unfold onmessage
  rw [audioPayload_some data i s hctx hne]
  simp only [hdec]

/-- C7-witness: the malformed payload "AA" (truncated base64 group) is
dropped by the handler with no state change even on a message also flagged
interrupted. -/
theorem decode_failure_nonfatal_witness :
    onmessage 3 7 ⟨some "AA", true⟩ sW = (sW, []) :=
  decode_failure_nonfatal sW 3 7 "AA" "MalformedAudioData" true rfl (by decide) rfl

/-- C5 (code bug): after `toggleMute` sets the mute flag, the registered
capture callback — which closed over the `isMuted` value current when the
session was started — still encodes and sends the captured frame, while the
microphone stream ref is untouched. Muting therefore does not stop outbound
transmission, contradicting the `Don't send if muted` intent in the source. -/
theorem mute_stale_closure_frame_sent :
    (toggleMute sW).isMuted = true ∧
    (toggleMute sW).stream = sW.stream ∧
    (registerCaptureHandler sW).capturedMuted = false ∧
    onaudioprocess (registerCaptureHandler sW) frameW
      = [Action.sendFrame (encodeFrame frameW)] :=
  ⟨rfl, rfl, rfl, rfl⟩

/-- C10: with the API_KEY environment variable unset or empty, the App
renders the configuration-error screen and mounts neither the chat interface
nor the live-session interface. -/
theorem missing_api_key_blocks_interfaces (env : Option String) (mode : AppMode)
    (henv : env = none ∨ env = some "") :
    appRender env mode = AppView.configError ∧
    mountsChatInterface (appRender env mode) = false ∧
    mountsLiveInterface (appRender env mode) = false := by
  rcases henv with h | h <;> subst h <;>
    simp [appRender, appApiKey, mountsChatInterface, mountsLiveInterface]

/-- C10-witness: the configuration-error screen at an unset API_KEY in chat
mode. -/
theorem missing_api_key_witness :
    appRender none AppMode.chat = AppView.configError ∧
    mountsChatInterface (appRender none AppMode.chat) = false ∧
    mountsLiveInterface (appRender none AppMode.chat) = false :=
  missing_api_key_blocks_interfaces none AppMode.chat (Or.inl rfl)

/-- C4-counterexample: a denied microphone acquisition from Idle does not
leave the session in the Error state — the catch block's cleanup call resets
the status to idle after the transient error status. -/
theorem denied_mic_final_state_not_error :
    (startSession "key" (MicResult.denied "PermissionDenied") idle0).state.status
      ≠ Status.error ∧
    (startSession "key" (MicResult.denied "PermissionDenied") idle0).statusTrace
      = [Status.connecting, Status.error, Status.idle] := by
  constructor
  · show Status.idle ≠ Status.error
    decide
  · rfl

/-- C4 (amended): a denied microphone acquisition produces the status
sequence connecting, error, idle — the final state is Idle because cleanup
runs last — with the error message set to the denial reason and no transport
connection attempted. -/
theorem denied_mic_trace (apiKey reason : String) (s : LiveState)
    (hk : apiKey ≠ "") (_hs : s.status = Status.idle) :
    (startSession apiKey (MicResult.denied reason) s).statusTrace
      = [Status.connecting, Status.error, Status.idle] ∧
    (startSession apiKey (MicResult.denied reason) s).state.status = Status.idle ∧
    (startSession apiKey (MicResult.denied reason) s).state.errorMessage = reason ∧
    (startSession apiKey (MicResult.denied reason) s).connectAttempted = false := by
  simp [startSession, hk, cleanup]

/-- A one-sample silent payload as produced by the capture encode path. -/
def dataW : String :=
  encodeFrame ⟨List.replicate 1 0, inputSampleRate⟩

/-- The chunk the one-sample silent payload decodes to at the output rate. -/
def bufW : PlaybackChunk :=
  ⟨List.replicate 1 0, outputSampleRate⟩

theorem dataW_ne_empty : dataW ≠ "" := by
  show encodeFrame ⟨List.replicate 1 0, inputSampleRate⟩ ≠ ""
  rw [encodeFrame_silent]
  decide

theorem decodeChunk_dataW : decodeChunk dataW outputSampleRate = Except.ok bufW :=
  decodeChunk_silent 1 inputSampleRate outputSampleRate

/-- C1: a scheduled inbound chunk starts at the sink time when the cursor had
fallen behind it (underrun reset), otherwise exactly at the cursor; the
cursor then advances by exactly the chunk's duration; and a second chunk
scheduled without an intervening interrupt and without underrun starts
exactly at the cursor the first chunk left, i.e. at start(1) + duration(1) —
gapless and non-overlapping. -/
theorem onmessage_schedules_gapless
    (s : LiveState) (tNow tNow2 : ℚ) (h1 h2 : Nat) (data1 data2 : String)
    (buf1 buf2 : PlaybackChunk)
    (hctx : s.outputContext.isSome = true)
    (hne1 : data1 ≠ "") (hdec1 : decodeChunk data1 outputSampleRate = Except.ok buf1)
    (hne2 : data2 ≠ "") (hdec2 : decodeChunk data2 outputSampleRate = Except.ok buf2) :
    (s.nextStartTime < tNow →
      (onmessage tNow h1 ⟨some data1, false⟩ s).2 = [Action.startVoice h1 tNow]) ∧
    (¬ s.nextStartTime < tNow →
      (onmessage tNow h1 ⟨some data1, false⟩ s).2
        = [Action.startVoice h1 s.nextStartTime]) ∧
    (onmessage tNow h1 ⟨some data1, false⟩ s).1.nextStartTime
      = (if s.nextStartTime < tNow then tNow else s.nextStartTime) + buf1.duration ∧
    (¬ (onmessage tNow h1 ⟨some data1, false⟩ s).1.nextStartTime < tNow2 →
      (onmessage tNow2 h2 ⟨some data2, false⟩
          (onmessage tNow h1 ⟨some data1, false⟩ s).1).2
        = [Action.startVoice h2
            (onmessage tNow h1 ⟨some data1, false⟩ s).1.nextStartTime]) := by
  have r1eq := onmessage_audio tNow h1 data1 s buf1
    (audioPayload_some data1 false s hctx hne1) hdec1
  refine ⟨?_, ?_, ?_, ?_⟩
  · intro hlt
    rw [r1eq]
    simp only [if_pos hlt]
  · intro hge
    rw [r1eq]
    simp only [if_neg hge]
  · rw [r1eq]
  · intro hno
    simp only [r1eq] at hno ⊢
    rw [onmessage_audio tNow2 h2 data2
      { s with
          nextStartTime := (if s.nextStartTime < tNow then tNow else s.nextStartTime)
            + buf1.duration
          sources := h1 :: s.sources } buf2
      (audioPayload_some data2 false _ hctx hne2) hdec2]
    rw [if_neg hno]

/-- C1-witness: two consecutive one-sample silent chunks scheduled on the
connected state with cursor 10 at sink time 10: the first starts at 10, the
cursor advances by the chunk duration, and the second starts exactly at that
advanced cursor. -/
theorem onmessage_schedules_gapless_witness :
    (sW.nextStartTime < 10 →
      (onmessage 10 21 ⟨some dataW, false⟩ sW).2 = [Action.startVoice 21 10]) ∧
    (¬ sW.nextStartTime < 10 →
      (onmessage 10 21 ⟨some dataW, false⟩ sW).2
        = [Action.startVoice 21 sW.nextStartTime]) ∧
    (onmessage 10 21 ⟨some dataW, false⟩ sW).1.nextStartTime
      = (if sW.nextStartTime < 10 then 10 else sW.nextStartTime) + bufW.duration ∧
    (onmessage 10 22 ⟨some dataW, false⟩
        (onmessage 10 21 ⟨some dataW, false⟩ sW).1).2
      = [Action.startVoice 22
          (onmessage 10 21 ⟨some dataW, false⟩ sW).1.nextStartTime] := by
  have T := onmessage_schedules_gapless sW 10 10 21 22 dataW dataW bufW bufW rfl
    dataW_ne_empty decodeChunk_dataW dataW_ne_empty decodeChunk_dataW
  refine ⟨T.1, T.2.1, T.2.2.1, T.2.2.2 ?_⟩
  rw [T.2.2.1]
  norm_num [sW, bufW, PlaybackChunk.duration, outputSampleRate]

/-- C6: cleanup is idempotent — a second call leaves the state unchanged and
performs no release action — and a single call releases each resource at most
once (its action list has no duplicates when the voice set has none); cleanup
is a total function, so it never throws. -/
theorem cleanup_idempotent (s : LiveState) (hnd : s.sources.Nodup) :
    (cleanup (cleanup s).1).1 = (cleanup s).1 ∧
    (cleanup (cleanup s).1).2 = [] ∧
    (cleanup s).2.Nodup := by
  refine ⟨cleanup_state_idempotent s, cleanup_second_call_no_actions s, ?_⟩
  have hinj : Function.Injective Action.stopVoice := by
    intro a b hab
    injection hab
  have hmap : (s.sources.map Action.stopVoice).Nodup := hnd.map hinj
  rcases hsp : s.scriptProcessor with _ | p <;>
    rcases his : s.inputSource with _ | q <;>
      rcases hst : s.stream with _ | r <;>
        rcases hic : s.inputContext with _ | u <;>
          rcases hoc : s.outputContext with _ | w <;>
  · simp only [cleanup, optActs, hsp, his, hst, hic, hoc, List.append_nil,
      List.nil_append, List.append_assoc]
    first
    | exact hmap
    | · rw [List.nodup_append]
        refine ⟨hmap, by decide, ?_⟩
        intro a ha
        rcases List.mem_map.mp ha with ⟨v, _, hv⟩
        subst hv
        simp

/-- C6-witness: the idempotence and no-double-release property evaluated on
the fully-acquired mid-playback state. -/
theorem cleanup_idempotent_witness :
    (cleanup (cleanup sIntr).1).1 = (cleanup sIntr).1 ∧
    (cleanup (cleanup sIntr).1).2 = [] ∧
    (cleanup sIntr).2.Nodup :=
  cleanup_idempotent sIntr (by decide)

/-- C3-counterexample: teardown of the fully-acquired state does not close
the transport channel: no close-session action is performed and the session
reference survives cleanup, so not every acquired resource is released. -/
theorem cleanup_leaves_session_open :
    Action.closeSession ∉ (cleanup sIntr).2 ∧ (cleanup sIntr).1.session = some 8 := by
  constructor
  · decide
  · rfl

/-- C3 (amended): teardown, from any state, stops every handle in
ActiveVoices, disconnects the capture-to-encoder wiring, stops the microphone
device, and closes both audio contexts (each when acquired), but it never
closes the transport channel — the session reference is left untouched for
passive disconnect or garbage collection. -/
theorem cleanup_releases_local_resources (s : LiveState) :
    (∀ v ∈ s.sources, Action.stopVoice v ∈ (cleanup s).2) ∧
    (s.scriptProcessor.isSome = true → Action.disconnectProcessor ∈ (cleanup s).2) ∧
    (s.inputSource.isSome = true → Action.disconnectInputSource ∈ (cleanup s).2) ∧
    (s.stream.isSome = true → Action.stopTracks ∈ (cleanup s).2) ∧
    (s.inputContext.isSome = true → Action.closeInputContext ∈ (cleanup s).2) ∧
    (s.outputContext.isSome = true → Action.closeOutputContext ∈ (cleanup s).2) ∧
    Action.closeSession ∉ (cleanup s).2 ∧
    (cleanup s).1.session = s.session ∧
    (cleanup s).1.sources = [] ∧
    (cleanup s).1.scriptProcessor = none ∧
    (cleanup s).1.inputSource = none ∧
    (cleanup s).1.stream = none ∧
    (cleanup s).1.inputContext = none ∧
    (cleanup s).1.outputContext = none := by
  refine ⟨?_, ?_, ?_, ?_, ?_, ?_, ?_, rfl, rfl, rfl, rfl, rfl, rfl, rfl⟩
  · intro v hv
    simp only [cleanup, List.mem_append, List.mem_map]
    exact Or.inl (Or.inl (Or.inl (Or.inl (Or.inl ⟨v, hv, rfl⟩))))
  · intro hsp
    rcases Option.isSome_iff_exists.mp hsp with ⟨p, hp⟩
    simp [cleanup, optActs, hp, List.mem_append]
  · intro hsp
    rcases Option.isSome_iff_exists.mp hsp with ⟨p, hp⟩
    simp [cleanup, optActs, hp, List.mem_append]
  · intro hsp
    rcases Option.isSome_iff_exists.mp hsp with ⟨p, hp⟩
    simp [cleanup, optActs, hp, List.mem_append]
  · intro hsp
    rcases Option.isSome_iff_exists.mp hsp with ⟨p, hp⟩
    simp [cleanup, optActs, hp, List.mem_append]
  · intro hsp
    rcases Option.isSome_iff_exists.mp hsp with ⟨p, hp⟩
    simp [cleanup, optActs, hp, List.mem_append]
  · intro hmem
    simp only [cleanup, List.mem_append] at hmem
    rcases hmem with ((((hm | hb1) | hb2) | hb3) | hb4) | hb5
    · rcases List.mem_map.mp hm with ⟨v, _, hv⟩
      simp at hv
    · have hE := mem_optActs hb1
      simp at hE
    · have hE := mem_optActs hb2
      simp at hE
    · have hE := mem_optActs hb3
      simp at hE
    · have hE := mem_optActs hb4
      simp at hE
    · have hE := mem_optActs hb5
      simp at hE

/-- C3-witness: the amended teardown contract evaluated on the
fully-acquired mid-playback state. -/
theorem cleanup_releases_witness :
    (∀ v ∈ sIntr.sources, Action.stopVoice v ∈ (cleanup sIntr).2) ∧
    (sIntr.scriptProcessor.isSome = true →
      Action.disconnectProcessor ∈ (cleanup sIntr).2) ∧
    (sIntr.inputSource.isSome = true →
      Action.disconnectInputSource ∈ (cleanup sIntr).2) ∧
    (sIntr.stream.isSome = true → Action.stopTracks ∈ (cleanup sIntr).2) ∧
    (sIntr.inputContext.isSome = true → Action.closeInputContext ∈ (cleanup sIntr).2) ∧
    (sIntr.outputContext.isSome = true →
      Action.closeOutputContext ∈ (cleanup sIntr).2) ∧
    Action.closeSession ∉ (cleanup sIntr).2 ∧
    (cleanup sIntr).1.session = sIntr.session ∧
    (cleanup sIntr).1.sources = [] ∧
    (cleanup sIntr).1.scriptProcessor = none ∧
    (cleanup sIntr).1.inputSource = none ∧
    (cleanup sIntr).1.stream = none ∧
    (cleanup sIntr).1.inputContext = none ∧
    (cleanup sIntr).1.outputContext = none :=
  cleanup_releases_local_resources sIntr

/-- C9-counterexample: encoding a 480-sample silent frame captured at 16000
Hz and decoding at the output rate 24000 Hz yields an all-zero chunk whose
duration (480/24000 s) differs from the frame's duration (480/16000 s): the
round trip does not preserve duration at the program's rates. -/
theorem silence_roundtrip_duration_mismatch :
    decodeChunk (encodeFrame ⟨List.replicate 480 0, inputSampleRate⟩) outputSampleRate
      = Except.ok ⟨List.replicate 480 0, outputSampleRate⟩ ∧
    PlaybackChunk.duration ⟨List.replicate 480 0, outputSampleRate⟩
      ≠ AudioFrame.duration ⟨List.replicate 480 0, inputSampleRate⟩ := by
  refine ⟨decodeChunk_silent 480 inputSampleRate outputSampleRate, ?_⟩
  simp only [PlaybackChunk.duration, AudioFrame.duration, List.length_replicate,
    inputSampleRate, outputSampleRate]
  norm_num

/-- C9 (amended): encode followed by decode on a silent frame yields a chunk
with the same number of samples, all zero; its duration is the sample count
over the decode rate, and it equals the frame's duration exactly when the
decode rate equals the frame's capture rate. -/
theorem silence_roundtrip_samples (n : ℕ) (rin rout : ℚ) :
    decodeChunk (encodeFrame ⟨List.replicate n 0, rin⟩) rout
      = Except.ok ⟨List.replicate n 0, rout⟩ ∧
    PlaybackChunk.duration ⟨List.replicate n 0, rout⟩ = n / rout ∧
    (rout = rin →
      PlaybackChunk.duration ⟨List.replicate n 0, rout⟩
        = AudioFrame.duration ⟨List.replicate n 0, rin⟩) := by
  refine ⟨decodeChunk_silent n rin rout, ?_, ?_⟩
  · simp [PlaybackChunk.duration]
  · intro hr
    simp [PlaybackChunk.duration, AudioFrame.duration, hr]

/-- C9-witness: the amended silent round trip evaluated at 480 samples with
matching 16000 Hz rates, where the duration is preserved. -/
theorem silence_roundtrip_samples_witness :
    decodeChunk (encodeFrame ⟨List.replicate 480 0, 16000⟩) 16000
      = Except.ok ⟨List.replicate 480 0, 16000⟩ ∧
    PlaybackChunk.duration ⟨List.replicate 480 0, (16000 : ℚ)⟩
      = AudioFrame.duration ⟨List.replicate 480 0, (16000 : ℚ)⟩ :=
  ⟨(silence_roundtrip_samples 480 16000 16000).1,
   (silence_roundtrip_samples 480 16000 16000).2.2 rfl⟩

/-- C8-witness: the amended cursor property evaluated on the connected state
with cursor 10 at sink time 10 and a one-sample silent chunk. -/
theorem cursor_schedule_monotone_witness :
    sW.nextStartTime ≤ (onmessage 10 21 ⟨some dataW, false⟩ sW).1.nextStartTime ∧
    (10 : ℚ) ≤ (onmessage 10 21 ⟨some dataW, false⟩ sW).1.nextStartTime ∧
    (onmessage 10 21 ⟨some dataW, false⟩ sW).1.nextStartTime
      = max sW.nextStartTime 10 + bufW.duration ∧
    (onmessage 10 23 ⟨none, true⟩ sW).1.nextStartTime = 0 ∧
    (cleanup sW).1.nextStartTime = 0 :=
  cursor_schedule_monotone sW 10 21 23 dataW bufW rfl dataW_ne_empty decodeChunk_dataW

/-- C4-witness: the amended denied-microphone scenario evaluated from the
fresh idle state. -/
theorem denied_mic_trace_witness :
    (startSession "key" (MicResult.denied "PermissionDenied") idle0).statusTrace
      = [Status.connecting, Status.error, Status.idle] ∧
    (startSession "key" (MicResult.denied "PermissionDenied") idle0).state.status
      = Status.idle ∧
    (startSession "key" (MicResult.denied "PermissionDenied") idle0).state.errorMessage
      = "PermissionDenied" ∧
    (startSession "key" (MicResult.denied "PermissionDenied") idle0).connectAttempted
      = false :=
  denied_mic_trace "key" "PermissionDenied" idle0 (by decide) rfl

end Movtrans
